import Mathlib

/-!
Shallow embedding of the lease coordination manager (`pkg/lease/manager.go`)
of the medik8s `common` repository, together with theorems settling the
specification claims about `RequestLease` and `InvalidateLease`.

Modelling choices:
* Instants (`metav1.MicroTime` / `time.Time`) are modelled as `Int`,
  counting nanoseconds since the epoch; `time.Duration` is likewise an
  `Int` count of nanoseconds.  `t1.Before t2` is `t1 < t2`, `t1.After t2`
  is `t2 < t1`, `t.Add d` is `t + d`.
* `int32(duration.Seconds())` truncates a duration to whole seconds; for
  durations whose second count fits in `int32` (the only ones considered
  by the theorems) this is truncating division by 10^9.
* The `int32` increment `*lease.Spec.LeaseTransitions += int32(1)` wraps
  modulo 2^32; `int32wrap` makes the wrap explicit.
* The Kubernetes client is an abstract record of four operations over an
  abstract store state `σ` (mirroring the `client.Client` interface);
  `fakeClient` instantiates it with the single-record in-memory semantics
  used by the package's own fake-client tests.
* Go `error` results are modelled with `Except`: store errors are
  surfaced as `LeaseError.store`, and the `fmt.Errorf` conflict message
  in `requestLease` as `LeaseError.message`.
-/

namespace LeaseManager

/-- Nanoseconds in one second (`time.Second`). -/
def nsPerSec : Int := 1000000000

/-- Wrap an integer into the range of Go's `int32`, as `int32` addition does. -/
def int32wrap (x : Int) : Int := (x + 2147483648) % 4294967296 - 2147483648

/-- `int32(duration.Seconds())`: whole seconds of a nanosecond duration,
truncated toward zero.  (For durations whose second count does not fit in
`int32` the Go conversion is implementation-specific; the theorems below
only use durations in range.) -/
def durationSeconds (d : Int) : Int := d.tdiv nsPerSec

/-- `metav1.OwnerReference` (the four fields set by `makeExpectedOwnerOfLease`). -/
structure OwnerReference where
  apiVersion : String
  kind : String
  name : String
  uid : String
deriving DecidableEq, Repr

/-- `coordv1.LeaseSpec`: the five optional fields used by the manager. -/
structure LeaseSpec where
  holderIdentity : Option String
  leaseDurationSeconds : Option Int
  acquireTime : Option Int
  renewTime : Option Int
  leaseTransitions : Option Int
deriving DecidableEq, Repr

/-- `coordv1.Lease`: name, namespace, owner references and spec
(the metadata the manager reads or writes). -/
structure Lease where
  name : String
  leaseNamespace : String
  ownerReferences : List OwnerReference
  spec : LeaseSpec
deriving DecidableEq, Repr

/-- The identity of a guarded `client.Object`: `GetName()`, `GetUID()` and
`GetObjectKind().GroupVersionKind()`'s kind and version. -/
structure ClientObject where
  name : String
  uid : String
  kind : String
  apiVersion : String
deriving DecidableEq, Repr

/-- Store-level errors of the Kubernetes API
(`errors.IsNotFound` / `errors.IsAlreadyExists` / update conflicts). -/
inductive StoreError where
  | notFound
  | alreadyExists
  | conflict
deriving DecidableEq, Repr

/-- Errors returned by the manager: either a store error surfaced
unchanged, or a `fmt.Errorf` message. -/
inductive LeaseError where
  | store (e : StoreError)
  | message (msg : String)
deriving DecidableEq, Repr

/-- The `client.Client` operations the manager uses, over an abstract
store state `σ`.  `get` is keyed by (namespace, name) and reads without
mutating; the three writes return the new store state or fail. -/
structure Client (σ : Type) where
  get : σ → String → String → Except StoreError Lease
  create : σ → Lease → Except StoreError σ
  update : σ → Lease → Except StoreError σ
  delete : σ → Lease → Except StoreError σ

/-- `makeExpectedOwnerOfLease`: the owner reference derived from the
guarded object. -/
def makeExpectedOwnerOfLease (obj : ClientObject) : OwnerReference :=
  { apiVersion := obj.apiVersion
    kind := obj.kind
    name := obj.name
    uid := obj.uid }

/-- `leaseDueTime`: `RenewTime + LeaseDurationSeconds * time.Second`.
The Go source dereferences the two pointers; every caller checks them for
`nil` first, so the `getD 0` defaults are never reached on those paths. -/
def leaseDueTime (lease : Lease) : Int :=
  lease.spec.renewTime.getD 0 + lease.spec.leaseDurationSeconds.getD 0 * nsPerSec

/-- `needUpdateOwnedLease`: decides whether a lease already held by the
caller needs a write (first component) and whether acquire time and the
transition counter must also be set (second component). -/
def needUpdateOwnedLease (lease : Lease) (currentTime : Int)
    (requestedLeaseDuration : Int) : Bool × Bool :=
  if lease.spec.renewTime.isNone || lease.spec.leaseDurationSeconds.isNone then
    (true, true)
  else
    let dueTime := leaseDueTime lease
    -- if lease expired right now, then both update the lease and the acquire
    -- time, the latter if the acquire time has been previously nil
    if dueTime < currentTime then
      (true, lease.spec.acquireTime.isNone)
    else
      let deadline := currentTime + requestedLeaseDuration
      -- about to expire: update the lease but not the acquire time
      (decide (dueTime < deadline), false)

/-- `isValidLease`: a lease is valid at `currentTime` iff its renew time
and duration are present, its due time is not in the past and its renew
time is not in the future. -/
def isValidLease (lease : Lease) (currentTime : Int) : Bool :=
  if lease.spec.renewTime.isNone || lease.spec.leaseDurationSeconds.isNone then
    false
  else
    let renewTime := lease.spec.renewTime.getD 0
    let dueTime := leaseDueTime lease
    !(decide (dueTime < currentTime)) && !(decide (currentTime < renewTime))

/-- `createLease`: build a fresh lease record for the guarded object and
issue the client create, surfacing any create error unchanged. -/
def createLease {σ : Type} (c : Client σ) (s : σ)
    (holderIdentity leaseNamespace : String) (obj : ClientObject)
    (duration currentTime : Int) : Except StoreError σ :=
  let owner := makeExpectedOwnerOfLease obj
  let lease : Lease :=
    { name := obj.name
      leaseNamespace := leaseNamespace
      ownerReferences := [owner]
      spec :=
        { holderIdentity := some holderIdentity
          leaseDurationSeconds := some (durationSeconds duration)
          acquireTime := some currentTime
          renewTime := some currentTime
          leaseTransitions := some 0 } }
  c.create s lease

/-- The tail of `requestLease` guarded by `if needUpdateLease`: mutate the
fetched lease in place (acquire time and transition counter only when
`setAcquireAndLeaseTransitions`), refresh owner reference, holder,
duration and renew time, and issue the client update. -/
def performLeaseUpdate {σ : Type} (c : Client σ) (s : σ)
    (holderIdentity : String) (obj : ClientObject) (lease : Lease)
    (leaseDuration currentTime : Int)
    (needUpdateLease setAcquireAndLeaseTransitions : Bool) :
    Except LeaseError Unit × σ :=
  if needUpdateLease then
    let lease1 :=
      if setAcquireAndLeaseTransitions then
        { lease with spec :=
          { lease.spec with
              acquireTime := some currentTime
              leaseTransitions :=
                some (match lease.spec.leaseTransitions with
                  | some t => int32wrap (t + 1)
                  | none => 1) } }
      else lease
    let owner := makeExpectedOwnerOfLease obj
    let lease2 :=
      { lease1 with
          ownerReferences := [owner]
          spec :=
            { lease1.spec with
                holderIdentity := some holderIdentity
                leaseDurationSeconds := some (durationSeconds leaseDuration)
                renewTime := some currentTime } }
    match c.update s lease2 with
    | .error e => (.error (.store e), s)
    | .ok s2 => (.ok (), s2)
  else
    (.ok (), s)

/-- `requestLease`: fetch the record (creating it when absent), classify
it against the caller's identity and the current instant, and issue at
most one conditional write. -/
def requestLease {σ : Type} (c : Client σ) (s : σ)
    (holderIdentity leaseNamespace : String) (obj : ClientObject)
    (leaseDuration currentTime : Int) : Except LeaseError Unit × σ :=
  match c.get s leaseNamespace obj.name with
  | .error e =>
      if e = .notFound then
        match createLease c s holderIdentity leaseNamespace obj leaseDuration
            currentTime with
        | .error e2 => (.error (.store e2), s)
        | .ok s2 => (.ok (), s2)
      else
        (.error (.store e), s)
  | .ok lease =>
      if lease.spec.holderIdentity = some holderIdentity then
        let nu := needUpdateOwnedLease lease currentTime leaseDuration
        performLeaseUpdate c s holderIdentity obj lease leaseDuration
          currentTime nu.1 nu.2
      else
        -- can't take over the lease if it is currently valid
        if isValidLease lease currentTime then
          (.error (.message "can't update valid lease held by different owner"), s)
        else
          -- taking over foreign lease
          performLeaseUpdate c s holderIdentity obj lease leaseDuration
            currentTime true true

/-- `invalidateLease` (pkg/lease/manager.go): fetch the record, treat
not-found as success, and delete it — the stored holder identity is never
consulted. -/
def invalidateLease {σ : Type} (c : Client σ) (s : σ)
    (leaseNamespace : String) (obj : ClientObject) :
    Except LeaseError Unit × σ :=
  match c.get s leaseNamespace obj.name with
  | .error e =>
      if e = .notFound then (.ok (), s) else (.error (.store e), s)
  | .ok lease =>
      match c.delete s lease with
      | .error e => (.error (.store e), s)
      | .ok s2 => (.ok (), s2)

/-- `invalidateLease` of the alternative manager variant in the repository
(the unnamed lease source file): fetch the record, treat not-found as
success, clear `acquireTime`/`leaseDurationSeconds`/`renewTime`/
`leaseTransitions` and issue the update — again without consulting the
stored holder identity. -/
def invalidateLeaseClearing {σ : Type} (c : Client σ) (s : σ)
    (objName leaseNamespace : String) : Except LeaseError Unit × σ :=
  match c.get s leaseNamespace objName with
  | .error e =>
      if e = .notFound then (.ok (), s) else (.error (.store e), s)
  | .ok lease =>
      let lease2 :=
        { lease with spec :=
          { lease.spec with
              acquireTime := none
              leaseDurationSeconds := none
              renewTime := none
              leaseTransitions := none } }
      match c.update s lease2 with
      | .error e => (.error (.store e), s)
      | .ok s2 => (.ok (), s2)

/-- The single-record in-memory client used to run the manager on
concrete inputs, with the semantics of the fake client the package's
tests build: `get` finds the stored record when namespace and name match,
`create` fails with already-exists when a record is present, `update` and
`delete` fail with not-found when none is. -/
def fakeClient : Client (Option Lease) :=
  { get := fun s ns nm =>
      match s with
      | some l =>
          if l.leaseNamespace = ns ∧ l.name = nm then .ok l
          else .error .notFound
      | none => .error .notFound
    create := fun s l =>
      match s with
      | some _ => .error .alreadyExists
      | none => .ok (some l)
    update := fun s l =>
      match s with
      | some _ => .ok (some l)
      | none => .error .notFound
    delete := fun s _ =>
      match s with
      | some _ => .ok none
      | none => .error .notFound }

/-! ### Concrete fixtures for closed runs -/

/-- The guarded object used by the concrete runs: the mock node of the
package's tests (`name = "miau"`, `uid = "foobar"`). -/
def mockNode : ClientObject :=
  { name := "miau", uid := "foobar", kind := "Node", apiVersion := "v1" }

/-- A concrete current instant for the closed runs (nanoseconds). -/
def testNow : Int := 1700000000000000000

/-- A one-hour requested lease duration in nanoseconds. -/
def testDuration : Int := 3600000000000

/-- A record held by the foreign identity `"miau"` whose window is valid
at `testNow` (renewed one second ago, 32000-second duration) — the
"validly-held foreign lease" of the package's tests. -/
def miauLease : Lease :=
  { name := "miau"
    leaseNamespace := "medik8s-leases"
    ownerReferences := [{ apiVersion := "v1", kind := "Node", name := "@", uid := "#" }]
    spec :=
      { holderIdentity := some "miau"
        leaseDurationSeconds := some 32000
        acquireTime := none
        renewTime := some (testNow - 1000000000)
        leaseTransitions := none } }

/-- The same valid record but held by a different foreign identity. -/
def otherHolderLease : Lease :=
  { miauLease with spec :=
    { miauLease.spec with holderIdentity := some "other-holder" } }

/-- The valid record with no holder identity at all. -/
def holderlessLease : Lease :=
  { miauLease with spec :=
    { miauLease.spec with holderIdentity := none } }

/-- An expired record held by the foreign identity `"miau"` with three
recorded transitions (the takeover-on-expiry scenario). -/
def expiredMiauLease : Lease :=
  { name := "miau"
    leaseNamespace := "medik8s-leases"
    ownerReferences := [{ apiVersion := "v1", kind := "Node", name := "@", uid := "#" }]
    spec :=
      { holderIdentity := some "miau"
        leaseDurationSeconds := some 44
        acquireTime := some 42000000000
        renewTime := some 43000000000
        leaseTransitions := some 3 } }

/-- An expired record held by the caller itself, with an acquire time on
record and one transition counted. -/
def selfExpiredLease : Lease :=
  { name := "miau"
    leaseNamespace := "medik8s-leases"
    ownerReferences := [{ apiVersion := "v1", kind := "Node", name := "@", uid := "#" }]
    spec :=
      { holderIdentity := some "some-operator"
        leaseDurationSeconds := some 44
        acquireTime := some 42000000000
        renewTime := some 43000000000
        leaseTransitions := some 1 } }

/-- An expired record held by the caller itself with no acquire time and
no transition counter. -/
def selfExpiredNilAcquireLease : Lease :=
  { selfExpiredLease with spec :=
    { selfExpiredLease.spec with
        acquireTime := none
        leaseTransitions := none } }

/-- A record held by the caller itself that is valid at `testNow` but due
within one more requested duration (renewed one second ago, one-hour
duration). -/
def aboutToExpireLease : Lease :=
  { name := "miau"
    leaseNamespace := "medik8s-leases"
    ownerReferences := [{ apiVersion := "v1", kind := "Node", name := "@", uid := "#" }]
    spec :=
      { holderIdentity := some "some-operator"
        leaseDurationSeconds := some 3600
        acquireTime := none
        renewTime := some (testNow - 1000000000)
        leaseTransitions := none } }

/-- A record held by the caller itself whose due time lies beyond
`testNow + testDuration` (renewed one second in the future). -/
def comfortableLease : Lease :=
  { aboutToExpireLease with spec :=
    { aboutToExpireLease.spec with
        renewTime := some (testNow + 1000000000) } }

/-! ### Claim theorems -/

/-- C4: a record is judged valid at instant `t` iff both `renewTime` and
`leaseDurationSeconds` are present, the due time `renewTime +
leaseDurationSeconds` is not before `t`, and `renewTime` is not after
`t`; a record missing either field is never valid (the right-hand side
then has no witness), regardless of its holder identity (which the
judgement never consults). -/
theorem C4_isValidLease_iff (lease : Lease) (t : Int) :
    isValidLease lease t = true ↔
      ∃ r d, lease.spec.renewTime = some r ∧
        lease.spec.leaseDurationSeconds = some d ∧
        ¬(r + d * nsPerSec < t) ∧ ¬(t < r) := by
  unfold isValidLease leaseDueTime
  cases hr : lease.spec.renewTime with
  | none => simp [hr]
  | some r =>
    cases hd : lease.spec.leaseDurationSeconds with
    | none => simp [hd]
    | some d => simp [hr, hd]

/-- C1 (divergence): `invalidateLease` never inspects the stored holder
identity.  Invoked with identity `"some-operator"` on a record held by
`"miau"`, it returns success and the record is deleted (manager.go
variant), respectively the record's spec fields are cleared (the
alternative lease-manager variant in the repository) — instead of failing
with the typed conflict error and leaving the record unchanged. -/
theorem C1_invalidateLease_ignores_foreign_holder :
    invalidateLease fakeClient (some miauLease) "medik8s-leases" mockNode
        = (.ok (), none)
      ∧ invalidateLeaseClearing fakeClient (some miauLease) "miau" "medik8s-leases"
        = (.ok (), some { miauLease with spec :=
            { holderIdentity := some "miau"
              leaseDurationSeconds := none
              acquireTime := none
              renewTime := none
              leaseTransitions := none } }) := by
  constructor <;> rfl

/-- C2 (divergence): on a validly-held foreign record, `requestLease`
does fail without writing, but the error is the fixed message
`"can't update valid lease held by different owner"` — an untyped
`fmt.Errorf` value that does not carry the foreign holder's identity:
two records with different holders produce the byte-identical error. -/
theorem C2_conflict_error_carries_no_identity :
    requestLease fakeClient (some miauLease) "some-operator" "medik8s-leases"
        mockNode testDuration testNow
        = (.error (.message "can't update valid lease held by different owner"),
           some miauLease)
      ∧ requestLease fakeClient (some otherHolderLease) "some-operator"
          "medik8s-leases" mockNode testDuration testNow
        = (.error (.message "can't update valid lease held by different owner"),
           some otherHolderLease) := by
  constructor <;> rfl

/-- Wrapping is the identity on the `int32` range. -/
theorem int32wrap_eq_self (x : Int) (h1 : -2147483648 ≤ x)
    (h2 : x < 2147483648) : int32wrap x = x := by
  unfold int32wrap
  omega

/-- C3: on a record held by a different identity whose window is invalid
at `now`, `requestLease` performs a takeover: holder becomes self,
acquire and renew time become `now`, the duration becomes the requested
one (whole seconds), the owner reference is replaced, and the transition
counter is incremented by exactly one, a missing counter counting as 0.
(The counter hypothesis keeps the stored `int32` away from the wrap
point.) -/
theorem C3_requestLease_takeover (lease : Lease) (obj : ClientObject)
    (self ns : String) (d now : Int)
    (hns : lease.leaseNamespace = ns) (hnm : lease.name = obj.name)
    (hfor : lease.spec.holderIdentity ≠ some self)
    (hinv : isValidLease lease now = false)
    (htr : ∀ t, lease.spec.leaseTransitions = some t →
      -2147483648 ≤ t ∧ t + 1 < 2147483648) :
    requestLease fakeClient (some lease) self ns obj d now =
      (.ok (), some
        { lease with
            ownerReferences := [makeExpectedOwnerOfLease obj]
            spec :=
              { lease.spec with
                  holderIdentity := some self
                  leaseDurationSeconds := some (durationSeconds d)
                  acquireTime := some now
                  renewTime := some now
                  leaseTransitions :=
                    some (lease.spec.leaseTransitions.getD 0 + 1) } }) := by
  have hget : fakeClient.get (some lease) ns obj.name = .ok lease := by
    simp [fakeClient, hns, hnm]
  unfold requestLease
  rw [hget]
  dsimp only
  rw [if_neg hfor, if_neg (by simp [hinv])]
  unfold performLeaseUpdate
  cases htv : lease.spec.leaseTransitions with
  | none => simp [fakeClient, htv]
  | some t =>
      have hw := int32wrap_eq_self (t + 1) (by have := htr t htv; omega)
        (by have := htr t htv; omega)
      simp [fakeClient, htv, hw]

/-- Witness for C3: takeover of the expired foreign record at concrete
inputs, with the transition counter advancing from 3 to 4. -/
theorem C3_requestLease_takeover_witness :
    requestLease fakeClient (some expiredMiauLease) "some-operator"
        "medik8s-leases" mockNode testDuration testNow =
      (.ok (), some
        { name := "miau"
          leaseNamespace := "medik8s-leases"
          ownerReferences := [makeExpectedOwnerOfLease mockNode]
          spec :=
            { holderIdentity := some "some-operator"
              leaseDurationSeconds := some 3600
              acquireTime := some testNow
              renewTime := some testNow
              leaseTransitions := some 4 } }) := by
  have h := C3_requestLease_takeover expiredMiauLease mockNode "some-operator"
    "medik8s-leases" testDuration testNow rfl rfl (by decide) rfl
    (by
      intro t ht
      simp [expiredMiauLease] at ht
      omega)
  rw [h]
  rfl

/-- C5: with no existing record, `requestLease` creates one with holder
self, acquire time and renew time both `now`, the requested duration in
whole seconds, a zero transition counter and the owner reference derived
from the guarded object; any create error is surfaced to the caller
unchanged. -/
theorem C5_requestLease_creates {σ : Type} (c : Client σ) (s : σ)
    (self ns : String) (obj : ClientObject) (d now : Int)
    (hget : c.get s ns obj.name = .error .notFound) :
    requestLease c s self ns obj d now =
      match c.create s
        { name := obj.name
          leaseNamespace := ns
          ownerReferences := [makeExpectedOwnerOfLease obj]
          spec :=
            { holderIdentity := some self
              leaseDurationSeconds := some (durationSeconds d)
              acquireTime := some now
              renewTime := some now
              leaseTransitions := some 0 } } with
      | .error e => (.error (.store e), s)
      | .ok s2 => (.ok (), s2) := by
  unfold requestLease createLease
  rw [hget]
  rfl

/-- Witness for C5: creating the record for the mock node in an empty
store yields exactly the specified record. -/
theorem C5_requestLease_creates_witness :
    requestLease fakeClient (none : Option Lease) "some-operator"
        "medik8s-leases" mockNode testDuration testNow =
      (.ok (), some
        { name := "miau"
          leaseNamespace := "medik8s-leases"
          ownerReferences := [makeExpectedOwnerOfLease mockNode]
          spec :=
            { holderIdentity := some "some-operator"
              leaseDurationSeconds := some 3600
              acquireTime := some testNow
              renewTime := some testNow
              leaseTransitions := some 0 } }) := by
  have h := C5_requestLease_creates fakeClient (none : Option Lease)
    "some-operator" "medik8s-leases" mockNode testDuration testNow rfl
  rw [h]
  rfl

/-- C6: on a record owned by self that is expired at `now` but still has
an acquire time on record, `requestLease` renews: the renew time becomes
`now` and the duration the requested one, while the acquire time and the
transition counter are inherited unchanged from the stored record. -/
theorem C6_expired_self_renewal_keeps_acquireTime (lease : Lease)
    (obj : ClientObject) (self ns : String) (d now r ds a : Int)
    (hns : lease.leaseNamespace = ns) (hnm : lease.name = obj.name)
    (hself : lease.spec.holderIdentity = some self)
    (hr : lease.spec.renewTime = some r)
    (hd : lease.spec.leaseDurationSeconds = some ds)
    (ha : lease.spec.acquireTime = some a)
    (hexp : r + ds * nsPerSec < now) :
    requestLease fakeClient (some lease) self ns obj d now =
      (.ok (), some
        { lease with
            ownerReferences := [makeExpectedOwnerOfLease obj]
            spec :=
              { lease.spec with
                  holderIdentity := some self
                  leaseDurationSeconds := some (durationSeconds d)
                  renewTime := some now } }) := by
  have hget : fakeClient.get (some lease) ns obj.name = .ok lease := by
    simp [fakeClient, hns, hnm]
  have hnu : needUpdateOwnedLease lease now d = (true, false) := by
    unfold needUpdateOwnedLease leaseDueTime
    rw [hr, hd, ha]
    simp [hexp]
  unfold requestLease
  rw [hget]
  dsimp only
  rw [if_pos hself, hnu]
  simp [performLeaseUpdate, fakeClient]

/-- Witness for C6 at the concrete expired self-owned record: the acquire
time 42000000000 and the transition count 1 survive the renewal. -/
theorem C6_expired_self_renewal_witness :
    requestLease fakeClient (some selfExpiredLease) "some-operator"
        "medik8s-leases" mockNode testDuration testNow =
      (.ok (), some
        { name := "miau"
          leaseNamespace := "medik8s-leases"
          ownerReferences := [makeExpectedOwnerOfLease mockNode]
          spec :=
            { holderIdentity := some "some-operator"
              leaseDurationSeconds := some 3600
              acquireTime := some 42000000000
              renewTime := some testNow
              leaseTransitions := some 1 } }) := by
  have h := C6_expired_self_renewal_keeps_acquireTime selfExpiredLease mockNode
    "some-operator" "medik8s-leases" testDuration testNow 43000000000 44
    42000000000 rfl rfl rfl rfl rfl rfl (by decide)
  rw [h]
  rfl

/-- C7: on a record owned by self that is still valid at `now` but due
before `now + requestedDuration`, `requestLease` writes an update that
refreshes the renew time and the duration (holder and owner reference
re-set idempotently) and inherits the acquire time and the transition
counter unchanged. -/
theorem C7_proactive_renewal_frame (lease : Lease)
    (obj : ClientObject) (self ns : String) (d now r ds : Int)
    (hns : lease.leaseNamespace = ns) (hnm : lease.name = obj.name)
    (hself : lease.spec.holderIdentity = some self)
    (hr : lease.spec.renewTime = some r)
    (hd : lease.spec.leaseDurationSeconds = some ds)
    (hnexp : ¬(r + ds * nsPerSec < now))
    (hsoon : r + ds * nsPerSec < now + d) :
    requestLease fakeClient (some lease) self ns obj d now =
      (.ok (), some
        { lease with
            ownerReferences := [makeExpectedOwnerOfLease obj]
            spec :=
              { lease.spec with
                  holderIdentity := some self
                  leaseDurationSeconds := some (durationSeconds d)
                  renewTime := some now } }) := by
  have hget : fakeClient.get (some lease) ns obj.name = .ok lease := by
    simp [fakeClient, hns, hnm]
  have hnu : needUpdateOwnedLease lease now d = (true, false) := by
    unfold needUpdateOwnedLease leaseDueTime
    rw [hr, hd]
    simp [hnexp, hsoon]
  unfold requestLease
  rw [hget]
  dsimp only
  rw [if_pos hself, hnu]
  simp [performLeaseUpdate, fakeClient]

/-- Witness for C7 at the concrete about-to-expire record: renew time
refreshed, acquire time still absent, transition counter still absent. -/
theorem C7_proactive_renewal_witness :
    requestLease fakeClient (some aboutToExpireLease) "some-operator"
        "medik8s-leases" mockNode testDuration testNow =
      (.ok (), some
        { name := "miau"
          leaseNamespace := "medik8s-leases"
          ownerReferences := [makeExpectedOwnerOfLease mockNode]
          spec :=
            { holderIdentity := some "some-operator"
              leaseDurationSeconds := some 3600
              acquireTime := none
              renewTime := some testNow
              leaseTransitions := none } }) := by
  have h := C7_proactive_renewal_frame aboutToExpireLease mockNode
    "some-operator" "medik8s-leases" testDuration testNow
    (testNow - 1000000000) 3600 rfl rfl rfl rfl rfl (by decide) (by decide)
  rw [h]
  rfl

/-- C8: on a record owned by self whose due time is not before
`now + requestedDuration`, `requestLease` returns success and performs no
write at all — for every client and store state, the store state is
returned untouched. -/
theorem C8_comfortably_valid_no_write {σ : Type} (c : Client σ) (s : σ)
    (self ns : String) (obj : ClientObject) (lease : Lease) (d now r ds : Int)
    (hget : c.get s ns obj.name = .ok lease)
    (hself : lease.spec.holderIdentity = some self)
    (hr : lease.spec.renewTime = some r)
    (hd : lease.spec.leaseDurationSeconds = some ds)
    (hd0 : 0 ≤ d)
    (hcomf : ¬(r + ds * nsPerSec < now + d)) :
    requestLease c s self ns obj d now = (.ok (), s) := by
  have hnu : needUpdateOwnedLease lease now d = (false, false) := by
    unfold needUpdateOwnedLease leaseDueTime
    rw [hr, hd]
    have h1 : ¬(r + ds * nsPerSec < now) := by omega
    simp [h1, hcomf]
  unfold requestLease
  rw [hget]
  dsimp only
  rw [if_pos hself, hnu]
  rfl

/-- Witness for C8: the comfortably-valid record is left identical in the
in-memory store. -/
theorem C8_comfortably_valid_no_write_witness :
    requestLease fakeClient (some comfortableLease) "some-operator"
        "medik8s-leases" mockNode testDuration testNow =
      (.ok (), some comfortableLease) := by
  exact C8_comfortably_valid_no_write fakeClient (some comfortableLease)
    "some-operator" "medik8s-leases" mockNode comfortableLease testDuration
    testNow (testNow + 1000000000) 3600 rfl rfl rfl rfl (by decide) (by decide)

/-- C9: on a record owned by self that is expired at `now` and has no
acquire time on record, `requestLease` not only sets a fresh acquire time
but also increments the transition counter by one, a missing counter
becoming 1 — the counter can advance on a self-renewal. -/
theorem C9_expired_nil_acquire_increments_transitions (lease : Lease)
    (obj : ClientObject) (self ns : String) (d now r ds : Int)
    (hns : lease.leaseNamespace = ns) (hnm : lease.name = obj.name)
    (hself : lease.spec.holderIdentity = some self)
    (hr : lease.spec.renewTime = some r)
    (hd : lease.spec.leaseDurationSeconds = some ds)
    (ha : lease.spec.acquireTime = none)
    (hexp : r + ds * nsPerSec < now)
    (htr : ∀ t, lease.spec.leaseTransitions = some t →
      -2147483648 ≤ t ∧ t + 1 < 2147483648) :
    requestLease fakeClient (some lease) self ns obj d now =
      (.ok (), some
        { lease with
            ownerReferences := [makeExpectedOwnerOfLease obj]
            spec :=
              { lease.spec with
                  holderIdentity := some self
                  leaseDurationSeconds := some (durationSeconds d)
                  acquireTime := some now
                  renewTime := some now
                  leaseTransitions :=
                    some (lease.spec.leaseTransitions.getD 0 + 1) } }) := by
  have hget : fakeClient.get (some lease) ns obj.name = .ok lease := by
    simp [fakeClient, hns, hnm]
  have hnu : needUpdateOwnedLease lease now d = (true, true) := by
    unfold needUpdateOwnedLease leaseDueTime
    rw [hr, hd, ha]
    simp [hexp]
  unfold requestLease
  rw [hget]
  dsimp only
  rw [if_pos hself, hnu]
  unfold performLeaseUpdate
  cases htv : lease.spec.leaseTransitions with
  | none => simp [fakeClient, htv]
  | some t =>
      have hw := int32wrap_eq_self (t + 1) (by have := htr t htv; omega)
        (by have := htr t htv; omega)
      simp [fakeClient, htv, hw]

/-- Witness for C9: the expired self-owned record with no acquire time
and no counter gets acquire time `testNow` and counter 1. -/
theorem C9_expired_nil_acquire_witness :
    requestLease fakeClient (some selfExpiredNilAcquireLease) "some-operator"
        "medik8s-leases" mockNode testDuration testNow =
      (.ok (), some
        { name := "miau"
          leaseNamespace := "medik8s-leases"
          ownerReferences := [makeExpectedOwnerOfLease mockNode]
          spec :=
            { holderIdentity := some "some-operator"
              leaseDurationSeconds := some 3600
              acquireTime := some testNow
              renewTime := some testNow
              leaseTransitions := some 1 } }) := by
  have h := C9_expired_nil_acquire_increments_transitions
    selfExpiredNilAcquireLease mockNode "some-operator" "medik8s-leases"
    testDuration testNow 43000000000 44 rfl rfl rfl rfl rfl rfl (by decide)
    (by
      intro t ht
      simp [selfExpiredNilAcquireLease, selfExpiredLease] at ht)
  rw [h]
  rfl

/-- C10: a record with an absent holder identity whose window is valid at
`now` is treated as a foreign-holder case by `requestLease` for every
caller: the fixed conflict error is returned and, for every client and
store state, the store state is returned untouched. -/
theorem C10_holderless_valid_is_conflict {σ : Type} (c : Client σ) (s : σ)
    (self ns : String) (obj : ClientObject) (lease : Lease) (d now : Int)
    (hget : c.get s ns obj.name = .ok lease)
    (hnil : lease.spec.holderIdentity = none)
    (hval : isValidLease lease now = true) :
    requestLease c s self ns obj d now =
      (.error (.message "can't update valid lease held by different owner"), s) := by
  unfold requestLease
  rw [hget]
  dsimp only
  rw [if_neg (by simp [hnil]), if_pos hval]

/-- Witness for C10: the holderless but time-valid record yields the
conflict error and an untouched store. -/
theorem C10_holderless_valid_witness :
    requestLease fakeClient (some holderlessLease) "some-operator"
        "medik8s-leases" mockNode testDuration testNow =
      (.error (.message "can't update valid lease held by different owner"),
       some holderlessLease) := by
  exact C10_holderless_valid_is_conflict fakeClient (some holderlessLease)
    "some-operator" "medik8s-leases" mockNode holderlessLease testDuration
    testNow rfl rfl rfl

end LeaseManager
